import Mathlib

/-!
Shallow embedding of `keyb_layout_switcher` (src/main.rs).

The program polls the USB device list, detects attach/detach edges of a
fixed target device ("445a:1121"), and switches the keyboard layout by
running an external command.  External effects (USB enumeration, command
execution) are modelled as explicit inputs; the layout switcher is
instrumented to also return the list of shell commands it executed.
-/

/-- The `Signal` enum from src/main.rs (lines 5-10). -/
inductive Signal where
  | ChangeAzerty
  | ChangeQwerty
  | NothingChanged
deriving DecidableEq, Repr

/-- A successfully read USB device descriptor: vendor/product ids are `u16`
values, modelled as naturals reduced mod 2^16 where formatted. -/
structure DeviceDescriptor where
  vendor_id : Nat
  product_id : Nat
deriving DecidableEq, Repr

/-- One entry of the enumerated device list: `device.device_descriptor()`
either yields a descriptor or fails with an error (rusb error text). -/
def DeviceResult := Except String DeviceDescriptor

instance {ε α : Type} [DecidableEq ε] [DecidableEq α] : DecidableEq (Except ε α) := fun a b =>
  match a, b with
  | Except.ok x, Except.ok y =>
    if h : x = y then isTrue (by rw [h]) else isFalse (by intro hc; cases hc; exact h rfl)
  | Except.error x, Except.error y =>
    if h : x = y then isTrue (by rw [h]) else isFalse (by intro hc; cases hc; exact h rfl)
  | Except.ok _, Except.error _ => isFalse (by intro hc; cases hc)
  | Except.error _, Except.ok _ => isFalse (by intro hc; cases hc)

instance : DecidableEq DeviceResult :=
  inferInstanceAs (DecidableEq (Except String DeviceDescriptor))

/-- One lower-case hex digit, as produced by Rust `{:x}` formatting. -/
def hexDigit (n : Nat) : Char :=
  if n < 10 then Char.ofNat (48 + n) else Char.ofNat (87 + n)

/-- Rust `format!("{:04x}", v)` for a `u16` value: exactly four lower-case
hex digits (a `u16` never needs more). -/
def hex4 (n : Nat) : String :=
  let m := n % 65536
  String.mk [hexDigit (m / 4096), hexDigit (m / 256 % 16), hexDigit (m / 16 % 16), hexDigit (m % 16)]

/-- The fixed target identifier string from src/main.rs line 119. -/
def target_id : String := "445a:1121"

/-- The body of the per-device closure in src/main.rs lines 122-135:
a device matches when its descriptor is readable and
`format!("{:04x}:{:04x}", vendor, product)` equals `target_id`.
A device whose descriptor read fails is only logged and never matches. -/
def deviceMatches (device : DeviceResult) : Bool :=
  match device with
  | Except.ok desc => (hex4 desc.vendor_id ++ ":" ++ hex4 desc.product_id) == target_id
  | Except.error _ => false

/-- The `found` flag after the `for_each` scan in src/main.rs lines 120-135:
starts `false`, set to `true` whenever a device matches. -/
def scanFound (devices : List DeviceResult) : Bool :=
  devices.foldl (fun found device => if deviceMatches device then true else found) false

/-- `handle_usb_switch_logic` from src/main.rs lines 117-150.
The enumeration result (`get_usb_devices()`) is passed in explicitly;
the `&mut bool` is modelled by returning the new boolean next to the
signal.  On enumeration failure the function errors before touching the
boolean, so no boolean is returned on that path. -/
def handle_usb_switch_logic (enumerated : Except String (List DeviceResult))
    (is_connected : Bool) : Except String (Signal × Bool) :=
  match enumerated with
  | Except.error _ => Except.error "Failed to get USBdevices"
  | Except.ok devices =>
    let found := scanFound devices
    if found && !is_connected then
      Except.ok (Signal.ChangeQwerty, true)
    else if !found && is_connected then
      Except.ok (Signal.ChangeAzerty, false)
    else
      Except.ok (Signal.NothingChanged, is_connected)

/-- Result of running a shell command (`std::process::Output`): whether
`status.success()` held, and the captured stderr. -/
structure CmdOutput where
  status_success : Bool
  stderr : String

/-- `change_keyboard_layout` from src/main.rs lines 62-107.  The external
`Command::new("/bin/sh").arg("-c").arg(command).output()` call is modelled
by the oracle `run`; the returned list records every command string the
function executed (empty for `NothingChanged`, which runs nothing). -/
def change_keyboard_layout (signal : Signal) (run : String → Except String CmdOutput) :
    Except String Unit × List String :=
  match signal with
  | Signal.ChangeAzerty =>
    let command := "/usr/bin/setxkbmap fr"
    match run command with
    | Except.error _ => (Except.error "Failed to change keyboard layout", [command])
    | Except.ok out =>
      if out.status_success then (Except.ok (), [command])
      else (Except.error "Failed to change keyboard layout to azerty", [command])
  | Signal.ChangeQwerty =>
    let command := "/usr/bin/setxkbmap us"
    match run command with
    | Except.error _ => (Except.error "Failed to change keyboard layout", [command])
    | Except.ok out =>
      if out.status_success then (Except.ok (), [command])
      else (Except.error "Failed to change keyboard layout to azerty", [command])
  | Signal.NothingChanged => (Except.ok (), [])

/-- The controller's persistent state across loop iterations
(`is_connected` and `last_signal` in `main`, src/main.rs lines 13-14). -/
structure ControllerState where
  is_connected : Bool
  last_signal : Signal
deriving DecidableEq, Repr

/-- Initial controller state at process start (src/main.rs lines 13-14). -/
def initState : ControllerState := ⟨false, Signal.NothingChanged⟩

/-- The external world as seen by one loop iteration: the enumeration
result and the command-execution oracle. -/
structure LoopInput where
  enumerated : Except String (List DeviceResult)
  run : String → Except String CmdOutput

/-- The tail of the loop body in `main` (src/main.rs lines 40-49), after a
successful detector call: invoke `change_keyboard_layout` when the signal
differs from `last_signal`; on switcher error keep `last_signal` (the
boolean was already updated inside `handle_usb_switch_logic`), on success
set `last_signal` to the signal.  The `Option Signal` records the signal
the switcher was invoked with, if it was invoked. -/
def apply_signal (st : ControllerState) (inp : LoopInput) (signal : Signal) (conn : Bool) :
    ControllerState × Option Signal :=
  if signal ≠ st.last_signal then
    match (change_keyboard_layout signal inp.run).1 with
    | Except.error _ => ({ is_connected := conn, last_signal := st.last_signal }, some signal)
    | Except.ok _ => ({ is_connected := conn, last_signal := signal }, some signal)
  else
    ({ is_connected := conn, last_signal := st.last_signal }, none)

/-- One iteration of the `loop` body in `main`, src/main.rs lines 26-51.
Returns the next state and `some s` when `change_keyboard_layout` was
invoked (with the signal it was invoked with), `none` otherwise.  On
enumeration error the iteration logs and continues with the state
untouched. -/
def loop_step (st : ControllerState) (inp : LoopInput) : ControllerState × Option Signal :=
  match handle_usb_switch_logic inp.enumerated st.is_connected with
  | Except.error _ => (st, none)
  | Except.ok (signal, conn) => apply_signal st inp signal conn

/-- Run the controller loop over a finite prefix of iterations, collecting
every signal `change_keyboard_layout` was invoked with, in order. -/
def controllerRunAux (st : ControllerState) : List LoopInput → ControllerState × List Signal
  | [] => (st, [])
  | inp :: rest =>
    let step := loop_step st inp
    let tail := controllerRunAux step.1 rest
    (tail.1, (match step.2 with | some s => [s] | none => []) ++ tail.2)

/-- Run the detector alone over a sequence of (successfully enumerated)
device-list snapshots, threading the connection boolean and collecting
the returned signals in order. -/
def detectorRunAux (conn : Bool) : List (List DeviceResult) → Bool × List Signal
  | [] => (conn, [])
  | devs :: rest =>
    match handle_usb_switch_logic (Except.ok devs) conn with
    | Except.ok (sig, conn2) =>
      let tail := detectorRunAux conn2 rest
      (tail.1, sig :: tail.2)
    | Except.error _ => detectorRunAux conn rest

/-- The most recently emitted non-`NothingChanged` signal of a signal
sequence, if any (observer used to state the spec's state-consistency
property). -/
def lastNonNoChange : List Signal → Option Signal
  | [] => none
  | s :: rest =>
    match lastNonNoChange rest with
    | some t => some t
    | none => if s = Signal.NothingChanged then none else some s

/-- Whether a device-list entry had a readable descriptor. -/
def readable (device : DeviceResult) : Bool :=
  match device with
  | Except.ok _ => true
  | Except.error _ => false

/-- The scan's `foldl` with any accumulator is an or with `List.any`. -/
lemma scanFound_foldl (l : List DeviceResult) (b : Bool) :
    l.foldl (fun found device => if deviceMatches device then true else found) b
      = (b || l.any deviceMatches) := by
  induction l generalizing b with
  | nil => simp
  | cons d rest ih =>
    simp only [List.foldl_cons, List.any_cons, ih]
    cases deviceMatches d <;> simp

/-- The `found` flag equals "some device in the list matches". -/
lemma scanFound_eq_any (l : List DeviceResult) : scanFound l = l.any deviceMatches := by
  rw [scanFound, scanFound_foldl]
  simp

/-- The `found` flag is true exactly when some listed device matches the
target identifier. -/
lemma scanFound_true_iff (l : List DeviceResult) :
    scanFound l = true ↔ ∃ d ∈ l, deviceMatches d = true := by
  rw [scanFound_eq_any]
  exact List.any_eq_true

/-- C1: for every device list and prior connection boolean, the detector
returns `ChangeQwerty` exactly when the target is found and the stored
state is false, `ChangeAzerty` exactly when the target is not found and
the stored state is true, and `NothingChanged` in every other case. -/
theorem C1_detector_signal_cases (devices : List DeviceResult) (conn : Bool) :
    ((handle_usb_switch_logic (Except.ok devices) conn).map Prod.fst
        = Except.ok Signal.ChangeQwerty
      ↔ ((∃ d ∈ devices, deviceMatches d = true) ∧ conn = false))
    ∧ ((handle_usb_switch_logic (Except.ok devices) conn).map Prod.fst
        = Except.ok Signal.ChangeAzerty
      ↔ (¬ (∃ d ∈ devices, deviceMatches d = true) ∧ conn = true))
    ∧ ((handle_usb_switch_logic (Except.ok devices) conn).map Prod.fst
        = Except.ok Signal.NothingChanged
      ↔ ((∃ d ∈ devices, deviceMatches d = true) ↔ conn = true)) := by
  rw [← scanFound_true_iff]
  cases hf : scanFound devices <;> cases conn <;>
    simp [handle_usb_switch_logic, hf, Except.map]

/-- Filtering out unreadable devices does not change whether a match
exists, since an unreadable device never matches. -/
lemma any_filter_readable (l : List DeviceResult) :
    (l.filter readable).any deviceMatches = l.any deviceMatches := by
  induction l with
  | nil => rfl
  | cons d rest ih =>
    cases d with
    | ok desc => simp [List.filter, readable, List.any_cons, ih]
    | error e => simp [List.filter, readable, List.any_cons, ih, deviceMatches]

/-- C7: a per-device descriptor-read failure never makes the detector
fail: with a successful enumeration the detector always returns a signal,
and that signal is computed from the readable devices only (dropping the
unreadable entries changes nothing). -/
theorem C7_unreadable_devices_skipped (devices : List DeviceResult) (conn : Bool) :
    (∃ r, handle_usb_switch_logic (Except.ok devices) conn = Except.ok r)
    ∧ handle_usb_switch_logic (Except.ok devices) conn
        = handle_usb_switch_logic (Except.ok (devices.filter readable)) conn := by
  have hscan : scanFound (devices.filter readable) = scanFound devices := by
    rw [scanFound_eq_any, scanFound_eq_any, any_filter_readable]
  constructor
  · cases hf : scanFound devices <;> cases conn <;>
      simp [handle_usb_switch_logic, hf]
  · cases hf : scanFound devices <;>
      simp [handle_usb_switch_logic, hf, hscan]

/-- C8: if the list contains a device with vendor id 0x445a and product
id 0x1121 and the stored boolean is false, the detector returns
`ChangeQwerty` and the boolean becomes true. -/
theorem C8_target_attach_detected (devices : List DeviceResult) (conn : Bool)
    (hmem : (Except.ok ⟨0x445a, 0x1121⟩ : DeviceResult) ∈ devices) (hconn : conn = false) :
    handle_usb_switch_logic (Except.ok devices) conn
      = Except.ok (Signal.ChangeQwerty, true) := by
  subst hconn
  have hfound : scanFound devices = true :=
    (scanFound_true_iff devices).mpr ⟨_, hmem, by decide⟩
  simp [handle_usb_switch_logic, hfound]

/-- Witness for C8 at a concrete one-element device list. -/
theorem C8_target_attach_detected_witness :
    handle_usb_switch_logic (Except.ok [Except.ok ⟨0x445a, 0x1121⟩]) false
      = Except.ok (Signal.ChangeQwerty, true) :=
  C8_target_attach_detected [Except.ok ⟨0x445a, 0x1121⟩] false (by simp) rfl

/-- C9: with the target present and the boolean already true, one detector
call returns `NothingChanged` leaving the boolean true, and any number of
repeated calls on the same list is the identity on the state, returning
`NothingChanged` every time. -/
theorem C9_steady_state_idempotent (devices : List DeviceResult) (n : Nat)
    (hfound : scanFound devices = true) :
    handle_usb_switch_logic (Except.ok devices) true
        = Except.ok (Signal.NothingChanged, true)
    ∧ detectorRunAux true (List.replicate n devices)
        = (true, List.replicate n Signal.NothingChanged) := by
  have hstep : handle_usb_switch_logic (Except.ok devices) true
      = Except.ok (Signal.NothingChanged, true) := by
    simp [handle_usb_switch_logic, hfound]
  refine ⟨hstep, ?_⟩
  induction n with
  | zero => rfl
  | succ k ih =>
    simp [List.replicate_succ, detectorRunAux, hstep, ih]

/-- Witness for C9 at a concrete device list with three repeated calls. -/
theorem C9_steady_state_idempotent_witness :
    handle_usb_switch_logic (Except.ok [Except.ok ⟨0x445a, 0x1121⟩]) true
        = Except.ok (Signal.NothingChanged, true)
    ∧ detectorRunAux true (List.replicate 3 [Except.ok ⟨0x445a, 0x1121⟩])
        = (true, List.replicate 3 Signal.NothingChanged) :=
  C9_steady_state_idempotent [Except.ok ⟨0x445a, 0x1121⟩] 3 (by decide)

/-- Attach edge: target found while the boolean was false. -/
lemma handle_attach (devs : List DeviceResult) (h : scanFound devs = true) :
    handle_usb_switch_logic (Except.ok devs) false
      = Except.ok (Signal.ChangeQwerty, true) := by
  simp [handle_usb_switch_logic, h]

/-- Detach edge: target not found while the boolean was true. -/
lemma handle_detach (devs : List DeviceResult) (h : scanFound devs = false) :
    handle_usb_switch_logic (Except.ok devs) true
      = Except.ok (Signal.ChangeAzerty, false) := by
  simp [handle_usb_switch_logic, h]

/-- Steady state: scan result agrees with the stored boolean. -/
lemma handle_steady (devs : List DeviceResult) (conn : Bool) (h : scanFound devs = conn) :
    handle_usb_switch_logic (Except.ok devs) conn
      = Except.ok (Signal.NothingChanged, conn) := by
  cases conn <;> simp [handle_usb_switch_logic, h]

/-- Unfolding of one successful detector-run step. -/
lemma detectorRunAux_cons_ok (conn : Bool) (devs : List DeviceResult)
    (rest : List (List DeviceResult)) (sig : Signal) (conn2 : Bool)
    (h : handle_usb_switch_logic (Except.ok devs) conn = Except.ok (sig, conn2)) :
    detectorRunAux conn (devs :: rest)
      = ((detectorRunAux conn2 rest).1, sig :: (detectorRunAux conn2 rest).2) := by
  simp [detectorRunAux, h]

/-- A `NothingChanged` in front does not change the last non-`NothingChanged`
signal. -/
lemma lastNonNoChange_cons_nothing (l : List Signal) :
    lastNonNoChange (Signal.NothingChanged :: l) = lastNonNoChange l := by
  cases hl : lastNonNoChange l <;> simp [lastNonNoChange, hl]

/-- A non-`NothingChanged` signal in front is the default when the rest has
no non-`NothingChanged` signal. -/
lemma lastNonNoChange_cons_sig (s : Signal) (l : List Signal)
    (hs : s ≠ Signal.NothingChanged) :
    lastNonNoChange (s :: l) = some ((lastNonNoChange l).getD s) := by
  cases hl : lastNonNoChange l <;> simp [lastNonNoChange, hl, hs]

/-- Invariant behind C3, generalized over the starting boolean: the final
boolean is true iff the last non-`NothingChanged` signal emitted was
`ChangeQwerty`, or no such signal was emitted and the boolean started
true. -/
lemma detectorRun_conn_iff (inputs : List (List DeviceResult)) (conn : Bool) :
    ((detectorRunAux conn inputs).1 = true)
      ↔ (lastNonNoChange (detectorRunAux conn inputs).2 = some Signal.ChangeQwerty
          ∨ (lastNonNoChange (detectorRunAux conn inputs).2 = none ∧ conn = true)) := by
  induction inputs generalizing conn with
  | nil => simp [detectorRunAux, lastNonNoChange]
  | cons devs rest ih =>
    cases hf : scanFound devs <;> cases conn
    · rw [detectorRunAux_cons_ok false devs rest _ _ (handle_steady devs false hf)]
      simpa [lastNonNoChange_cons_nothing] using ih false
    · rw [detectorRunAux_cons_ok true devs rest _ _ (handle_detach devs hf)]
      have ihx := ih false
      cases hl : lastNonNoChange (detectorRunAux false rest).2 <;> rw [hl] at ihx <;>
        simp [lastNonNoChange_cons_sig, hl, ihx]
    · rw [detectorRunAux_cons_ok false devs rest _ _ (handle_attach devs hf)]
      have ihx := ih true
      cases hl : lastNonNoChange (detectorRunAux true rest).2 <;> rw [hl] at ihx <;>
        simp_all [lastNonNoChange_cons_sig, hl]
    · rw [detectorRunAux_cons_ok true devs rest _ _ (handle_steady devs true hf)]
      simpa [lastNonNoChange_cons_nothing] using ih true

/-- C3: starting from `ConnectionState = false`, after any sequence of
detector calls the boolean is true iff the most recently returned
non-`NothingChanged` signal was `ChangeQwerty` (false when none yet). -/
theorem C3_state_consistency (inputs : List (List DeviceResult)) :
    (detectorRunAux false inputs).1 = true
      ↔ lastNonNoChange (detectorRunAux false inputs).2 = some Signal.ChangeQwerty := by
  simpa using detectorRun_conn_iff inputs false

/-- Invariant behind C4, generalized over the starting boolean: the
subsequence of non-`NothingChanged` signals has no two equal neighbours,
and its first element is forced by the starting boolean. -/
lemma detectorRun_chain (inputs : List (List DeviceResult)) (conn : Bool) :
    List.Chain' (fun a b => a ≠ b)
      (((detectorRunAux conn inputs).2).filter (fun s => decide (s ≠ Signal.NothingChanged)))
    ∧ (∀ s, ((((detectorRunAux conn inputs).2).filter
          (fun s => decide (s ≠ Signal.NothingChanged))).head? = some s →
        s = (if conn then Signal.ChangeAzerty else Signal.ChangeQwerty))) := by
  induction inputs generalizing conn with
  | nil => simp [detectorRunAux]
  | cons devs rest ih =>
    cases hf : scanFound devs <;> cases conn
    · rw [detectorRunAux_cons_ok false devs rest _ _ (handle_steady devs false hf)]
      rw [List.filter_cons_of_neg (by decide)]
      exact ih false
    · rw [detectorRunAux_cons_ok true devs rest _ _ (handle_detach devs hf)]
      rw [List.filter_cons_of_pos (by decide)]
      constructor
      · rw [List.chain'_cons']
        refine ⟨?_, (ih false).1⟩
        intro b hb
        rw [Option.mem_def] at hb
        have hbq := (ih false).2 b hb
        simp at hbq
        simp [hbq]
      · intro s hs
        simp only [List.head?_cons, Option.some.injEq] at hs
        simp [← hs]
    · rw [detectorRunAux_cons_ok false devs rest _ _ (handle_attach devs hf)]
      rw [List.filter_cons_of_pos (by decide)]
      constructor
      · rw [List.chain'_cons']
        refine ⟨?_, (ih true).1⟩
        intro b hb
        rw [Option.mem_def] at hb
        have hba := (ih true).2 b hb
        simp at hba
        simp [hba]
      · intro s hs
        simp only [List.head?_cons, Option.some.injEq] at hs
        simp [← hs]
    · rw [detectorRunAux_cons_ok true devs rest _ _ (handle_steady devs true hf)]
      rw [List.filter_cons_of_neg (by decide)]
      exact ih true

/-- C4: starting from the initial state, consecutive non-`NothingChanged`
signals returned by the detector always differ: it can never return
`ChangeQwerty` twice without an intervening `ChangeAzerty`, nor the
converse. -/
theorem C4_signals_alternate (inputs : List (List DeviceResult)) :
    List.Chain' (fun a b => a ≠ b)
      (((detectorRunAux false inputs).2).filter
        (fun s => decide (s ≠ Signal.NothingChanged))) :=
  (detectorRun_chain inputs false).1

/-- A one-element device list containing exactly the target device. -/
def okTargetList : List DeviceResult := [Except.ok ⟨0x445a, 0x1121⟩]

/-- A command oracle on which every command succeeds. -/
def runOk : String → Except String CmdOutput := fun _ => Except.ok ⟨true, ""⟩

/-- A command oracle on which every command fails to spawn. -/
def runFail : String → Except String CmdOutput := fun _ => Except.error "spawn failed"

/-- Iteration input: target attached, commands succeed. -/
def stepInputOk : LoopInput := ⟨Except.ok okTargetList, runOk⟩

/-- Iteration input: target attached, commands fail. -/
def stepInputFail : LoopInput := ⟨Except.ok okTargetList, runFail⟩

/-- Iteration input: USB enumeration itself fails. -/
def stepInputEnumFail : LoopInput := ⟨Except.error "no usb context", runOk⟩

/-- C2 counterexample: starting from the initial state, after the target
stays attached for two polls with all commands succeeding, the second
iteration invokes `change_keyboard_layout` with `NothingChanged` (the
detector's `NothingChanged` differs from the remembered `ChangeQwerty`),
refuting "it is never invoked with the NoChange signal". -/
theorem C2_counterexample_nothing_changed_invoked :
    (controllerRunAux initState [stepInputOk, stepInputOk]).2
        = [Signal.ChangeQwerty, Signal.NothingChanged]
    ∧ Signal.NothingChanged ∈ (controllerRunAux initState [stepInputOk, stepInputOk]).2 := by
  constructor
  · decide
  · decide

/-- Shape of a loop iteration whose enumeration failed. -/
lemma loop_step_err (st : ControllerState) (inp : LoopInput) (e : String)
    (h : handle_usb_switch_logic inp.enumerated st.is_connected = Except.error e) :
    loop_step st inp = (st, none) := by
  unfold loop_step
  rw [h]

/-- A successful detector call hands over to `apply_signal`. -/
lemma loop_step_ok_eq (st : ControllerState) (inp : LoopInput) (s : Signal) (c : Bool)
    (h : handle_usb_switch_logic inp.enumerated st.is_connected = Except.ok (s, c)) :
    loop_step st inp = apply_signal st inp s c := by
  unfold loop_step
  rw [h]

/-- Shape of a loop iteration whose detector signal equals `last_signal`:
no invocation, boolean refreshed, `last_signal` kept. -/
lemma loop_step_steady (st : ControllerState) (inp : LoopInput) (s : Signal) (c : Bool)
    (h : handle_usb_switch_logic inp.enumerated st.is_connected = Except.ok (s, c))
    (hs : s = st.last_signal) :
    loop_step st inp = ({ is_connected := c, last_signal := st.last_signal }, none) := by
  rw [loop_step_ok_eq st inp s c h]
  unfold apply_signal
  rw [if_neg (fun hn => hn hs)]

/-- Shape of a loop iteration that invokes the switcher and it fails:
`last_signal` is kept. -/
lemma loop_step_invoke_err (st : ControllerState) (inp : LoopInput) (s : Signal) (c : Bool)
    (e : String)
    (h : handle_usb_switch_logic inp.enumerated st.is_connected = Except.ok (s, c))
    (hs : s ≠ st.last_signal)
    (hc : (change_keyboard_layout s inp.run).1 = Except.error e) :
    loop_step st inp = ({ is_connected := c, last_signal := st.last_signal }, some s) := by
  rw [loop_step_ok_eq st inp s c h]
  unfold apply_signal
  rw [if_pos hs, hc]

/-- Shape of a loop iteration that invokes the switcher and it succeeds:
`last_signal` becomes the current signal. -/
lemma loop_step_invoke_ok (st : ControllerState) (inp : LoopInput) (s : Signal) (c : Bool)
    (u : Unit)
    (h : handle_usb_switch_logic inp.enumerated st.is_connected = Except.ok (s, c))
    (hs : s ≠ st.last_signal)
    (hc : (change_keyboard_layout s inp.run).1 = Except.ok u) :
    loop_step st inp = ({ is_connected := c, last_signal := s }, some s) := by
  rw [loop_step_ok_eq st inp s c h]
  unfold apply_signal
  rw [if_pos hs, hc]

/-- C2 amended: the Controller invokes `change_keyboard_layout` with a
signal exactly when the detector succeeded with that signal and it differs
from `last_signal`; this includes invocations with `NothingChanged` (after
a successfully applied edge), which execute no command and succeed. -/
theorem C2_amended_invocation_iff (st : ControllerState) (inp : LoopInput) (sig : Signal) :
    ((loop_step st inp).2 = some sig ↔
      ((∃ conn, handle_usb_switch_logic inp.enumerated st.is_connected
          = Except.ok (sig, conn))
        ∧ sig ≠ st.last_signal))
    ∧ change_keyboard_layout Signal.NothingChanged inp.run = (Except.ok (), []) := by
  refine ⟨?_, rfl⟩
  cases h : handle_usb_switch_logic inp.enumerated st.is_connected with
  | error e =>
    rw [loop_step_err st inp e h]
    constructor
    · intro hno
      exact Option.noConfusion hno
    · rintro ⟨⟨conn, hEq⟩, hne⟩
      exact Except.noConfusion hEq
  | ok p =>
    obtain ⟨s, c⟩ := p
    by_cases hs : s = st.last_signal
    · rw [loop_step_steady st inp s c h hs]
      constructor
      · intro hno
        exact Option.noConfusion hno
      · rintro ⟨⟨conn, hEq⟩, hne⟩
        injection hEq with hp
        injection hp with h1 h2
        exact absurd (h1.symm.trans hs) hne
    · cases hc : (change_keyboard_layout s inp.run).1 with
      | error e0 =>
        rw [loop_step_invoke_err st inp s c e0 h hs hc]
        constructor
        · intro hss
          have hss2 : some s = some sig := hss
          injection hss2 with hss2
          subst hss2
          exact ⟨⟨c, rfl⟩, hs⟩
        · rintro ⟨⟨conn, hEq⟩, hne⟩
          injection hEq with hp
          injection hp with h1 h2
          show some s = some sig
          rw [h1]
      | ok u =>
        rw [loop_step_invoke_ok st inp s c u h hs hc]
        constructor
        · intro hss
          have hss2 : some s = some sig := hss
          injection hss2 with hss2
          subst hss2
          exact ⟨⟨c, rfl⟩, hs⟩
        · rintro ⟨⟨conn, hEq⟩, hne⟩
          injection hEq with hp
          injection hp with h1 h2
          show some s = some sig
          rw [h1]

/-- C5: whenever the switcher is invoked and fails, `last_signal` is left
unchanged; whenever it is invoked and succeeds, `last_signal` becomes the
current signal; and whenever the detector succeeds with a signal that
still differs from `last_signal`, the switcher is invoked again with it. -/
theorem C5_switch_failure_retry (st : ControllerState) (inp : LoopInput) (sig : Signal) :
    ((loop_step st inp).2 = some sig →
      (∀ e, (change_keyboard_layout sig inp.run).1 = Except.error e →
        ((loop_step st inp).1).last_signal = st.last_signal)
      ∧ ((change_keyboard_layout sig inp.run).1 = Except.ok () →
        ((loop_step st inp).1).last_signal = sig))
    ∧ (∀ conn, handle_usb_switch_logic inp.enumerated st.is_connected
          = Except.ok (sig, conn) →
        sig ≠ st.last_signal → (loop_step st inp).2 = some sig) := by
  constructor
  · intro hinv
    cases h : handle_usb_switch_logic inp.enumerated st.is_connected with
    | error e =>
      rw [loop_step_err st inp e h] at hinv
      exact Option.noConfusion hinv
    | ok p =>
      obtain ⟨s, c⟩ := p
      by_cases hs : s = st.last_signal
      · rw [loop_step_steady st inp s c h hs] at hinv
        exact Option.noConfusion hinv
      · cases hc : (change_keyboard_layout s inp.run).1 with
        | error e0 =>
          rw [loop_step_invoke_err st inp s c e0 h hs hc] at hinv
          have hss : some s = some sig := hinv
          injection hss with hss
          subst hss
          constructor
          · intro e2 he2
            rw [loop_step_invoke_err st inp s c e0 h hs hc]
          · intro hok
            rw [hok] at hc
            exact Except.noConfusion hc
        | ok u =>
          rw [loop_step_invoke_ok st inp s c u h hs hc] at hinv
          have hss : some s = some sig := hinv
          injection hss with hss
          subst hss
          constructor
          · intro e2 he2
            rw [he2] at hc
            exact Except.noConfusion hc
          · intro hok
            rw [loop_step_invoke_ok st inp s c u h hs hc]
  · intro conn hh hne
    cases hc : (change_keyboard_layout sig inp.run).1 with
    | error e0 => rw [loop_step_invoke_err st inp sig conn e0 hh hne hc]
    | ok u => rw [loop_step_invoke_ok st inp sig conn u hh hne hc]

/-- Witness for C5: with the target newly attached, a failing switcher
leaves `last_signal` at `NothingChanged`; a successful detector result
differing from `last_signal` triggers the invocation. -/
theorem C5_switch_failure_retry_witness :
    ((loop_step initState stepInputFail).1).last_signal = Signal.NothingChanged
    ∧ (loop_step initState stepInputOk).2 = some Signal.ChangeQwerty := by
  constructor
  · exact ((C5_switch_failure_retry initState stepInputFail Signal.ChangeQwerty).1
      (by decide)).1 "Failed to change keyboard layout" (by decide)
  · exact (C5_switch_failure_retry initState stepInputOk Signal.ChangeQwerty).2
      true (by decide) (by decide)

/-- C6: when enumeration fails, the detector returns the enumeration error
and no signal, and the loop iteration leaves the whole controller state
(`is_connected` and `last_signal`) unchanged without invoking the
switcher. -/
theorem C6_enumeration_failure (st : ControllerState) (inp : LoopInput) (e : String)
    (henum : inp.enumerated = Except.error e) :
    handle_usb_switch_logic inp.enumerated st.is_connected
        = Except.error "Failed to get USBdevices"
    ∧ loop_step st inp = (st, none) := by
  have h1 : handle_usb_switch_logic inp.enumerated st.is_connected
      = Except.error "Failed to get USBdevices" := by
    rw [henum]; rfl
  refine ⟨h1, ?_⟩
  unfold loop_step
  rw [h1]

/-- Witness for C6 at a concrete failing enumeration. -/
theorem C6_enumeration_failure_witness :
    handle_usb_switch_logic stepInputEnumFail.enumerated initState.is_connected
        = Except.error "Failed to get USBdevices"
    ∧ loop_step initState stepInputEnumFail = (initState, none) :=
  C6_enumeration_failure initState stepInputEnumFail "no usb context" rfl

/-- C10: invoking the switcher with `NothingChanged` is a total no-op: it
returns `Ok(())` and executes no external command, whatever the command
oracle would do. -/
theorem C10_nothing_changed_noop (run : String → Except String CmdOutput) :
    change_keyboard_layout Signal.NothingChanged run = (Except.ok (), []) := rfl
